import Mathlib

/-!
Shallow embedding of the QuickDeploy deployment service (server.js and
setup-database.js): the upload handler, the renew handler, the static
content resolver, the deployment-name validator, and the pg variant of
ingestion together with the update_deployment_stats trigger.  Times are
measured in whole days as integers; file bytes are lists of naturals;
the object-storage bucket is an association list from keys to byte lists.
-/

namespace QuickDeploy

/-- Configuration values read from the environment in server.js (config
object, lines 22-46); only the fields the embedded handlers use. -/
structure Config where
  defaultExpiryDays : Int
  maxExpiryDays : Int
  baseUrl : String
  supabaseUrl : String
deriving DecidableEq

/-- Defaults from server.js: DEFAULT_EXPIRY_DAYS 7, MAX_EXPIRY_DAYS 30. -/
def defaultConfig : Config :=
  { defaultExpiryDays := 7
    maxExpiryDays := 30
    baseUrl := "http://localhost:3000"
    supabaseUrl := "https://example.supabase.co" }

/-- JavaScript a-or-b on strings: the empty string is falsy, so
req.body.name with a default via the or-operator yields the default both
when the field is absent and when it is the empty string. -/
def jsOrString (o : Option String) (d : String) : String :=
  match o with
  | none => d
  | some s => if s = "" then d else s

/-- JavaScript parseInt-then-or on numbers: parseInt of a missing or
non-numeric field gives NaN (falsy, modelled as none) and parseInt of "0"
gives 0 (also falsy), so both fall back to the default; every other
integer is kept, including negative ones. -/
def jsOrInt (o : Option Int) (d : Int) : Int :=
  match o with
  | none => d
  | some v => if v = 0 then d else v

/-- Characters matched by the regex class backslash-s in JavaScript:
ASCII whitespace plus the Unicode space separators, line separators and
the byte-order mark. -/
def jsRegexSpace (c : Char) : Bool :=
  c = ' ' || c = '\t' || c = '\n' || c = '\u000b' || c = '\u000c' || c = '\r' ||
  c = '\u00a0' || c = '\u1680' ||
  ('\u2000' ≤ c && c ≤ '\u200a') ||
  c = '\u2028' || c = '\u2029' || c = '\u202f' || c = '\u205f' ||
  c = '\u3000' || c = '\ufeff'

/-- Characters matched by the class in the validator regex of server.js
line 252: letters, digits, backslash-s whitespace, hyphen, underscore. -/
def isNameClassChar (c : Char) : Bool :=
  ('a' ≤ c && c ≤ 'z') || ('A' ≤ c && c ≤ 'Z') || ('0' ≤ c && c ≤ '9') ||
  jsRegexSpace c || c = '-' || c = '_'

/-- Test of the anchored regex in server.js line 252: one or more
characters, all drawn from the name class. -/
def regexTestName (s : String) : Bool :=
  !s.data.isEmpty && s.data.all isNameClassChar

/-- isValidDeploymentName from server.js lines 251-253 (the same function
appears in setup-database.js lines 953-955 and in the client-side
UploadManager): regex test plus length between 1 and 100. -/
def isValidDeploymentName (s : String) : Bool :=
  regexTestName s && decide (1 ≤ s.length) && decide (s.length ≤ 100)

/-- Extension-to-MIME lookup table from getMimeType in server.js
lines 223-249. -/
def mimeTable : List (String × String) :=
  [(".html", "text/html"), (".htm", "text/html"), (".css", "text/css"),
   (".js", "application/javascript"), (".json", "application/json"),
   (".png", "image/png"), (".jpg", "image/jpeg"), (".jpeg", "image/jpeg"),
   (".gif", "image/gif"), (".svg", "image/svg+xml"), (".webp", "image/webp"),
   (".ico", "image/x-icon"), (".woff", "font/woff"), (".woff2", "font/woff2"),
   (".ttf", "font/ttf"), (".otf", "font/otf"), (".zip", "application/zip"),
   (".txt", "text/plain"), (".md", "text/markdown"), (".pdf", "application/pdf")]

/-- Index of the last dot in a character list, if any. -/
def lastDotIdx : List Char → Option Nat
  | [] => none
  | c :: rest =>
    match lastDotIdx rest with
    | some i => some (i + 1)
    | none => if c = '.' then some 0 else none

/-- Model of node path.extname: take the part after the last slash; if it
holds a dot at a position after the first character, the extension runs
from that last dot to the end, otherwise it is empty. -/
def extname (filename : String) : String :=
  let base := ((filename.splitOn "/").getLastD "").data
  match lastDotIdx base with
  | some i => if 0 < i then String.mk (base.drop i) else ""
  | none => ""

/-- Association-list lookup used for the MIME table. -/
def tableLookup : List (String × String) → String → Option String
  | [], _ => none
  | e :: rest, k => if e.1 = k then some e.2 else tableLookup rest k

/-- getMimeType from server.js lines 223-249: look the lowercased
extension up in the table, defaulting to application/octet-stream. -/
def getMimeType (filename : String) : String :=
  (tableLookup mimeTable (extname filename).toLower).getD "application/octet-stream"

/-- Object-storage bucket: keys (deploymentId slash fileName) to bytes. -/
abbrev ObjectStorage := List (String × List Nat)

/-- First-match lookup in the bucket. -/
def storageLookup : ObjectStorage → String → Option (List Nat)
  | [], _ => none
  | e :: rest, k => if e.1 = k then some e.2 else storageLookup rest k

/-- Remove every object stored under a key. -/
def storageErase : ObjectStorage → String → ObjectStorage
  | [], _ => []
  | e :: rest, k => if e.1 = k then storageErase rest k else e :: storageErase rest k

/-- Upload with upsert true (server.js lines 574-579): the new bytes
replace whatever was stored under the key. -/
def storageUpsert (st : ObjectStorage) (k : String) (v : List Nat) : ObjectStorage :=
  (k, v) :: storageErase st k

/-- Row of the deployments table (schema in setup-database.js lines
53-71), restricted to the columns the embedded handlers read or write. -/
structure DeploymentRow where
  id : String
  name : String
  description : String
  url : String
  admin_url : String
  file_count : Nat
  total_size : Nat
  expires_at : Int
  updated_at : Int
  status : String
deriving DecidableEq

/-- Row of the deployment_files table (schema in setup-database.js lines
77-93 plus the storage_path column the Supabase handler writes). -/
structure FileRecord where
  deployment_id : String
  file_path : String
  original_name : String
  file_size : Nat
  mime_type : String
  storage_path : String
deriving DecidableEq

/-- Relational store: the deployments and deployment_files tables. -/
structure DB where
  deployments : List DeploymentRow
  deployment_files : List FileRecord
deriving DecidableEq

/-- One multer in-memory file of the upload batch: original name, bytes,
size and the MIME type multer attached. -/
structure UploadedFile where
  originalname : String
  bytes : List Nat
  size : Nat
  mimetype : String
deriving DecidableEq

/-- Body of a POST to the upload route: optional name, description and
expiry-day fields plus the file batch. -/
structure UploadRequest where
  name : Option String
  description : Option String
  expiryDays : Option Int
  files : List UploadedFile
deriving DecidableEq

/-- Outcome of the upload handler: success payload, the 400 response for
an invalid name, or the 500 response of the catch block. -/
inductive UploadOutcome where
  | ok (deploymentId : String) (fileCount : Nat) (totalSize : Nat)
  | invalidName
  | serverError
deriving DecidableEq

/-- File record pushed by the upload loop of server.js lines 584-591:
file_path and original_name are both the original file name, and
storage_path is the bucket key deploymentId slash original name. -/
def mkFileRecord (deploymentId : String) (f : UploadedFile) : FileRecord :=
  { deployment_id := deploymentId
    file_path := f.originalname
    original_name := f.originalname
    file_size := f.size
    mime_type := f.mimetype
    storage_path := deploymentId ++ "/" ++ f.originalname }

/-- Per-file loop of server.js lines 571-592: upsert each file into the
bucket under deploymentId slash original name, accumulating total size
and file records.  A storage failure on the file at position i (the
fault flag) throws, handing the bucket as mutated so far to the catch
block; the error value carries that bucket. -/
def uploadLoop (deploymentId : String) (uploadFails : Nat → Bool) :
    List UploadedFile → Nat → ObjectStorage → Nat → List FileRecord →
    Except ObjectStorage (ObjectStorage × Nat × List FileRecord)
  | [], _, st, total, recs => .ok (st, total, recs)
  | f :: rest, i, st, total, recs =>
    if uploadFails i then .error st
    else
      uploadLoop deploymentId uploadFails rest (i + 1)
        (storageUpsert st (deploymentId ++ "/" ++ f.originalname) f.bytes)
        (total + f.size) (recs ++ [mkFileRecord deploymentId f])

/-- Bucket contents carried by either outcome of the upload loop. -/
def loopBucket : Except ObjectStorage (ObjectStorage × Nat × List FileRecord) → ObjectStorage
  | .error st => st
  | .ok (st, _, _) => st

/-- Upload handler of server.js lines 551-657.  Arguments beyond the
request: now and ts stand for the clock (days and Date.now), the fresh
uuid, fault flags for the storage uploads and the two table inserts.
Mirrors the source order: resolve name, description and expiry days with
javascript or-defaults, reject an invalid name with 400, upload each
file (upsert), insert the deployments row (file_count and total_size
from the accumulated records), then insert the file records; any thrown
error reaches the catch block, which answers 500 and performs no
compensating cleanup. -/
def uploadHandler (cfg : Config) (now ts : Int) (deploymentId : String)
    (req : UploadRequest) (uploadFails : Nat → Bool)
    (deploymentInsertFails filesInsertFails : Bool)
    (st : ObjectStorage) (db : DB) : UploadOutcome × ObjectStorage × DB :=
  let deploymentName := jsOrString req.name ("Deployment-" ++ toString ts)
  let deploymentDesc := jsOrString req.description ""
  let expiryDays := jsOrInt req.expiryDays cfg.defaultExpiryDays
  if isValidDeploymentName deploymentName then
    let expiresAt := now + min expiryDays cfg.maxExpiryDays
    match uploadLoop deploymentId uploadFails req.files 0 st 0 [] with
    | .error st1 => (.serverError, st1, db)
    | .ok (st1, totalSize, fileRecords) =>
      let deploymentUrl :=
        cfg.supabaseUrl ++ "/storage/v1/object/public/deployments/" ++ deploymentId
      let adminUrl := cfg.baseUrl ++ "/deployment/" ++ deploymentId
      if deploymentInsertFails then (.serverError, st1, db)
      else
        let row : DeploymentRow :=
          { id := deploymentId
            name := deploymentName
            description := deploymentDesc
            url := deploymentUrl
            admin_url := adminUrl
            file_count := fileRecords.length
            total_size := totalSize
            expires_at := expiresAt
            updated_at := now
            status := "active" }
        let db1 : DB := { db with deployments := db.deployments ++ [row] }
        if 0 < fileRecords.length then
          if filesInsertFails then (.serverError, st1, db1)
          else
            (.ok deploymentId fileRecords.length totalSize, st1,
              { db1 with deployment_files := db1.deployment_files ++ fileRecords })
        else (.ok deploymentId fileRecords.length totalSize, st1, db1)
  else (.invalidName, st, db)

/-- Outcome of the renew handler: the 200 response carrying newExpiry, or
the 500 response of the catch block. -/
inductive RenewOutcome where
  | ok (newExpiry : Int)
  | serverError
deriving DecidableEq

/-- Effective day count of a renew request (server.js lines 781-784):
parseInt with or-default, then Math.min with maxExpiryDays; there is no
lower bound. -/
def renewEffectiveDays (cfg : Config) (daysParam : Option Int) : Int :=
  min (jsOrInt daysParam cfg.defaultExpiryDays) cfg.maxExpiryDays

/-- New expiry computed by the renew handler: now plus the effective day
count. -/
def renewNewExpiry (cfg : Config) (now : Int) (daysParam : Option Int) : Int :=
  now + renewEffectiveDays cfg daysParam

/-- Renew handler of server.js lines 778-821: one update statement
filtered by id, setting expires_at and updated_at.  An update matching
zero rows is not an error, so the handler answers success whether or not
the deployment exists; there is no lookup and no 404 path. -/
def renewHandler (cfg : Config) (now : Int) (id : String) (daysParam : Option Int)
    (db : DB) : RenewOutcome × DB :=
  let newExpiry := renewNewExpiry cfg now daysParam
  (.ok newExpiry,
    { db with
      deployments := db.deployments.map (fun r =>
        if r.id = id then { r with expires_at := newExpiry, updated_at := now } else r) })

/-- String suffix test (model of the javascript endsWith), computed on
the character lists. -/
def strEndsWith (s post : String) : Bool :=
  post.data.isSuffixOf s.data

/-- Result of the static content route: the two distinct 404 responses,
the 410 response for an expired deployment, or bytes with a content
type. -/
inductive StaticResult where
  | dbNotFound
  | expired
  | fileNotFound
  | ok (bytes : List Nat) (contentType : String)
deriving DecidableEq

/-- HTTP status code attached to each static route result. -/
def staticStatus : StaticResult → Nat
  | .dbNotFound => 404
  | .expired => 410
  | .fileNotFound => 404
  | .ok _ _ => 200

/-- Lookup of server.js lines 860-865: select from deployments filtered
by id and status active, with single, which succeeds only when exactly
one row matches. -/
def staticFindRow (db : DB) (id : String) : Option DeploymentRow :=
  match db.deployments.filter (fun r => decide (r.id = id) && decide (r.status = "active")) with
  | [d] => some d
  | _ => none

/-- Static content route of server.js lines 855-908: find the active
deployment row (404 on miss), answer 410 when expires_at is strictly in
the past, download deploymentId slash path from the bucket, and on a
storage miss fall back to path plus index.html (served as text/html)
only when the path is empty or ends in a slash; otherwise 404. -/
def staticHandler (now : Int) (db : DB) (st : ObjectStorage)
    (deploymentId filePath : String) : StaticResult :=
  match staticFindRow db deploymentId with
  | none => .dbNotFound
  | some d =>
    if d.expires_at < now then .expired
    else
      match storageLookup st (deploymentId ++ "/" ++ filePath) with
      | some bytes => .ok bytes (getMimeType filePath)
      | none =>
        if filePath = "" ∨ strEndsWith filePath "/" then
          match storageLookup st (deploymentId ++ "/" ++ filePath ++ "index.html") with
          | some b => .ok b "text/html"
          | none => .fileNotFound
        else .fileNotFound

/-- One file found by getAllFiles in the pg upload variant
(setup-database.js lines 930-952): relative path, base name and size. -/
structure PgFile where
  relativePath : String
  name : String
  size : Nat
deriving DecidableEq

/-- File record inserted by the pg upload variant (setup-database.js
lines 1421-1432): mime type from the external mime.lookup with the
javascript or-default; the insert names no storage_path column, so that
field stays empty. -/
def mkPgFileRecord (mimeOf : String → Option String) (deploymentId : String)
    (f : PgFile) : FileRecord :=
  { deployment_id := deploymentId
    file_path := f.relativePath
    original_name := f.name
    file_size := f.size
    mime_type := (mimeOf f.name).getD "application/octet-stream"
    storage_path := "" }

/-- Insert into deployment_files with the update_deployment_file_stats
trigger installed (setup-database.js lines 399-421 and 508-514): the row
is appended and the AFTER INSERT trigger adds one to file_count and the
file size to total_size of the owning deployment, stamping updated_at. -/
def insertFileRecordPg (now : Int) (db : DB) (r : FileRecord) : DB :=
  { deployments := db.deployments.map (fun d =>
      if d.id = r.deployment_id then
        { d with
          file_count := d.file_count + 1
          total_size := d.total_size + r.file_size
          updated_at := now }
      else d)
    deployment_files := db.deployment_files ++ [r] }

/-- Deployments row inserted by the pg upload handler (setup-database.js
lines 1406-1418): explicit file_count and total_size computed from the
batch, expiry from the clamped day count, status defaulting to
active. -/
def pgUploadRow (cfg : Config) (now : Int) (deploymentId name desc : String)
    (expiryDaysParam : Option Int) (files : List PgFile) : DeploymentRow :=
  { id := deploymentId
    name := name
    description := desc
    url := cfg.baseUrl ++ "/static/" ++ deploymentId
    admin_url := cfg.baseUrl ++ "/deployment/" ++ deploymentId
    file_count := files.length
    total_size := (files.map (fun f => f.size)).sum
    expires_at := now + min (jsOrInt expiryDaysParam cfg.defaultExpiryDays) cfg.maxExpiryDays
    updated_at := now
    status := "active" }

/-- Transaction body of the pg upload handler (setup-database.js lines
1349-1471), restricted to its database effect: validate the name (a
failure throws, the transaction rolls back and the store is unchanged,
modelled as none), insert the deployments row with file_count and
total_size computed from the batch, then insert one file record per
file, each insert firing the stats trigger. -/
def pgUploadTransaction (cfg : Config) (now : Int) (deploymentId name desc : String)
    (expiryDaysParam : Option Int) (mimeOf : String → Option String)
    (files : List PgFile) (db : DB) : Option DB :=
  if isValidDeploymentName name then
    some ((files.map (mkPgFileRecord mimeOf deploymentId)).foldl (insertFileRecordPg now)
      { db with deployments := db.deployments ++
          [pgUploadRow cfg now deploymentId name desc expiryDaysParam files] })
  else none

/-- File records of the store that belong to a deployment id. -/
def filesOf (db : DB) (id : String) : List FileRecord :=
  db.deployment_files.filter (fun r => decide (r.deployment_id = id))

/-- Aggregate-counter invariant claimed by the spec: every deployments
row carries exactly the count and summed size of its file records. -/
def statsInvariant (db : DB) : Bool :=
  db.deployments.all (fun d =>
    decide (d.file_count = (filesOf db d.id).length) &&
    decide (d.total_size = ((filesOf db d.id).map (fun r => r.file_size)).sum))

/-- Concrete deployments row of an expired but still active-status
deployment, used in concrete checks of the resolver. -/
def exampleExpiredRow : DeploymentRow :=
  { id := "d1"
    name := "Demo"
    description := ""
    url := "u"
    admin_url := "a"
    file_count := 0
    total_size := 0
    expires_at := -1
    updated_at := 0
    status := "active" }

/-- Concrete deployments row of an active, unexpired deployment, used in
concrete checks of the resolver. -/
def exampleActiveRow : DeploymentRow :=
  { id := "d1"
    name := "Demo"
    description := ""
    url := "u"
    admin_url := "a"
    file_count := 1
    total_size := 2
    expires_at := 10
    updated_at := 0
    status := "active" }

/-! Helper lemmas -/

/-- Mapping a function that fixes every member of a list leaves the list
unchanged. -/
theorem map_id_of_mem {α : Type} (l : List α) (f : α → α) (h : ∀ x ∈ l, f x = x) :
    l.map f = l := by
  induction l with
  | nil => rfl
  | cons a t ih =>
    simp only [List.map_cons]
    rw [h a (List.mem_cons_self a t), ih (fun x hx => h x (List.mem_cons_of_mem a hx))]

/-- Lookup after erasing a key: the erased key is gone and every other
key is unaffected. -/
theorem storageLookup_erase (st : ObjectStorage) (k k' : String) :
    storageLookup (storageErase st k) k' = if k' = k then none else storageLookup st k' := by
  induction st with
  | nil => simp [storageErase, storageLookup]
  | cons e rest ih =>
    simp only [storageErase, storageLookup]
    by_cases h1 : e.1 = k
    · simp only [if_pos h1, ih]
      by_cases h2 : k' = k
      · simp [h2]
      · have h3 : ¬ e.1 = k' := by rw [h1]; exact fun hh => h2 hh.symm
        simp [h2, h3, storageLookup]
    · simp only [if_neg h1, storageLookup, ih]
      by_cases h3 : e.1 = k'
      · have h4 : ¬ k' = k := fun hh => h1 (h3.trans hh)
        simp [h3, h4]
      · simp [h3]

/-- Lookup after an upsert: the upserted key now holds the new bytes and
every other key is unaffected. -/
theorem storageLookup_upsert (st : ObjectStorage) (k k' : String) (v : List Nat) :
    storageLookup (storageUpsert st k v) k' = if k' = k then some v else storageLookup st k' := by
  simp only [storageUpsert, storageLookup]
  by_cases h : k = k'
  · simp [h]
  · have h' : ¬ k' = k := fun hh => h hh.symm
    simp [h, h', storageLookup_erase]

/-- An upsert never makes a present key absent. -/
theorem storageLookup_isSome_upsert (st : ObjectStorage) (k k' : String) (v : List Nat)
    (h : (storageLookup st k').isSome = true) :
    (storageLookup (storageUpsert st k v) k').isSome = true := by
  rw [storageLookup_upsert]
  by_cases hk : k' = k
  · simp [hk]
  · simp [hk, h]

/-- Whatever the upload loop does, a key already present in the bucket
is still present in the bucket it hands on, also on the error path. -/
theorem uploadLoop_bucket_mono (deploymentId : String) (uploadFails : Nat → Bool) :
    ∀ (files : List UploadedFile) (i : Nat) (st : ObjectStorage) (total : Nat)
      (recs : List FileRecord) (k : String),
      (storageLookup st k).isSome = true →
      (storageLookup (loopBucket (uploadLoop deploymentId uploadFails files i st total recs))
        k).isSome = true := by
  intro files
  induction files with
  | nil => intro i st total recs k h; simpa [uploadLoop, loopBucket] using h
  | cons f rest ih =>
    intro i st total recs k h
    cases hf : uploadFails i with
    | true => simpa [uploadLoop, hf, loopBucket] using h
    | false =>
      simp only [uploadLoop, hf, Bool.false_eq_true, if_false]
      exact ih _ _ _ _ _ (storageLookup_isSome_upsert _ _ _ _ h)

/-- With no storage fault injected the upload loop succeeds. -/
theorem uploadLoop_no_faults_ok (deploymentId : String) (uploadFails : Nat → Bool)
    (hf : ∀ n, uploadFails n = false) :
    ∀ (files : List UploadedFile) (i : Nat) (st : ObjectStorage) (total : Nat)
      (recs : List FileRecord),
      ∃ out, uploadLoop deploymentId uploadFails files i st total recs = .ok out := by
  intro files
  induction files with
  | nil => intro i st total recs; exact ⟨(st, total, recs), rfl⟩
  | cons f rest ih =>
    intro i st total recs
    simp only [uploadLoop, hf i, Bool.false_eq_true, if_false]
    exact ih _ _ _ _

/-- With no storage fault injected, every file of the batch ends up
present in the bucket the upload loop hands on, under the key
deploymentId slash original name. -/
theorem uploadLoop_uploads_all (deploymentId : String) (uploadFails : Nat → Bool)
    (hf : ∀ n, uploadFails n = false) :
    ∀ (files : List UploadedFile) (i : Nat) (st : ObjectStorage) (total : Nat)
      (recs : List FileRecord) (f : UploadedFile),
      f ∈ files →
      (storageLookup (loopBucket (uploadLoop deploymentId uploadFails files i st total recs))
        (deploymentId ++ "/" ++ f.originalname)).isSome = true := by
  intro files
  induction files with
  | nil => intro i st total recs f hmem; cases hmem
  | cons g rest ih =>
    intro i st total recs f hmem
    simp only [uploadLoop, hf i, Bool.false_eq_true, if_false]
    rcases List.mem_cons.mp hmem with h | h
    · subst h
      exact uploadLoop_bucket_mono _ _ _ _ _ _ _ _
        (by rw [storageLookup_upsert]; simp)
    · exact ih _ _ _ _ f h

/-! Claim theorems -/

/-- C10: the deployment-name validator accepts names made only of
whitespace; for any count of spaces between 1 and 100, the all-space
string passes, because the regex class includes backslash-s. -/
theorem whitespace_only_name_accepted (n : Nat) (h1 : 1 ≤ n) (h2 : n ≤ 100) :
    isValidDeploymentName (String.mk (List.replicate n ' ')) = true := by
  obtain ⟨m, rfl⟩ : ∃ m, n = m + 1 := ⟨n - 1, by omega⟩
  simp only [isValidDeploymentName, regexTestName, String.length, Bool.and_eq_true,
    Bool.not_eq_true', decide_eq_true_eq, List.length_replicate]
  refine ⟨⟨⟨?_, ?_⟩, ?_⟩, ?_⟩
  · simp [List.replicate_succ]
  · rw [List.all_eq_true]
    intro x hx
    have hsp : x = ' ' := List.eq_of_mem_replicate hx
    subst hsp
    decide
  · omega
  · omega

/-- Witness for C10 at three spaces. -/
theorem whitespace_only_name_accepted_witness :
    1 ≤ 3 ∧ 3 ≤ 100 ∧ isValidDeploymentName (String.mk (List.replicate 3 ' ')) = true :=
  ⟨by decide, by decide, whitespace_only_name_accepted 3 (by decide) (by decide)⟩

/-- C8: an upload whose effective deployment name fails the validator is
answered with the 400 invalid-name response before any byte is written;
the bucket and both tables come back unchanged, so no deployment row and
no stored bytes exist under the fresh id. -/
theorem invalid_name_upload_rejected_unchanged (cfg : Config) (now ts : Int)
    (deploymentId : String) (req : UploadRequest) (uploadFails : Nat → Bool)
    (deploymentInsertFails filesInsertFails : Bool) (st : ObjectStorage) (db : DB)
    (hname : isValidDeploymentName (jsOrString req.name ("Deployment-" ++ toString ts)) = false) :
    uploadHandler cfg now ts deploymentId req uploadFails deploymentInsertFails
      filesInsertFails st db = (.invalidName, st, db) := by
  simp [uploadHandler, hname]

/-- Witness for C8: a name holding a slash is rejected with state
untouched. -/
theorem invalid_name_upload_rejected_unchanged_witness :
    isValidDeploymentName (jsOrString (some "bad/name") ("Deployment-" ++ toString (0 : Int))) = false ∧
    uploadHandler defaultConfig 0 0 "d1"
      { name := some "bad/name", description := none, expiryDays := none, files := [] }
      (fun _ => false) false false [] ⟨[], []⟩ = (.invalidName, [], ⟨[], []⟩) :=
  ⟨by decide,
    invalid_name_upload_rejected_unchanged defaultConfig 0 0 "d1"
      { name := some "bad/name", description := none, expiryDays := none, files := [] }
      (fun _ => false) false false [] ⟨[], []⟩ (by decide)⟩

/-- C4 counterexample: the renew arithmetic does not clamp the requested
day count from below; minus five days is kept as is, so the new expiry
is five days before now instead of at least one day after. -/
theorem renew_negative_days_counterexample :
    renewNewExpiry defaultConfig 0 (some (-5)) = -5 ∧
    ¬ ((0 : Int) + 1 ≤ renewNewExpiry defaultConfig 0 (some (-5))) := by decide

/-- C4 amended: the renew day count is clamped above by maxExpiryDays
(so maxExpiryDays plus fifty yields now plus maxExpiryDays), zero or
unparsable falls back to defaultExpiryDays, but a negative count is not
clamped below: minus five days yields now minus five. -/
theorem renew_days_clamped_above_only (cfg : Config) (now : Int)
    (hmax : 0 < cfg.maxExpiryDays) (hdef : cfg.defaultExpiryDays ≤ cfg.maxExpiryDays) :
    renewNewExpiry cfg now (some (cfg.maxExpiryDays + 50)) = now + cfg.maxExpiryDays ∧
    renewNewExpiry cfg now none = now + cfg.defaultExpiryDays ∧
    (∀ d : Int, renewNewExpiry cfg now (some d) ≤ now + cfg.maxExpiryDays) ∧
    renewNewExpiry cfg now (some (-5)) = now - 5 := by
  unfold renewNewExpiry renewEffectiveDays
  refine ⟨?_, ?_, ?_, ?_⟩
  · simp only [jsOrInt]
    rw [if_neg (show ¬(cfg.maxExpiryDays + 50 = 0) by omega),
      min_eq_right (by omega : cfg.maxExpiryDays ≤ cfg.maxExpiryDays + 50)]
  · simp only [jsOrInt]
    rw [min_eq_left hdef]
  · intro d
    exact add_le_add_left (min_le_right _ _) now
  · simp only [jsOrInt]
    rw [if_neg (show ¬((-5 : Int) = 0) by omega),
      min_eq_left (by omega : (-5 : Int) ≤ cfg.maxExpiryDays)]
    omega

/-- Witness for C4 amended at the default configuration. -/
theorem renew_days_clamped_above_only_witness :
    (0 : Int) < defaultConfig.maxExpiryDays ∧
    (renewNewExpiry defaultConfig 0 (some (defaultConfig.maxExpiryDays + 50)) =
        0 + defaultConfig.maxExpiryDays ∧
      renewNewExpiry defaultConfig 0 none = 0 + defaultConfig.defaultExpiryDays ∧
      (∀ d : Int, renewNewExpiry defaultConfig 0 (some d) ≤ 0 + defaultConfig.maxExpiryDays) ∧
      renewNewExpiry defaultConfig 0 (some (-5)) = 0 - 5) :=
  ⟨by decide, renew_days_clamped_above_only defaultConfig 0 (by decide) (by decide)⟩

/-- C5 counterexample: renewing an id absent from the store does not
fail with a 404; the update matches no rows, raises no error, and the
handler reports success with the computed expiry. -/
theorem renew_unknown_id_counterexample :
    renewHandler defaultConfig 0 "missing" none ⟨[], []⟩ = (.ok 7, ⟨[], []⟩) := by decide

/-- C5 amended: the renew handler has no 404 path; when no row carries
the requested id the update is a no-op and the handler still answers
success with the new expiry. -/
theorem renew_unknown_id_succeeds_noop (cfg : Config) (now : Int) (id : String)
    (daysParam : Option Int) (db : DB) (h : ∀ r ∈ db.deployments, r.id ≠ id) :
    renewHandler cfg now id daysParam db = (.ok (renewNewExpiry cfg now daysParam), db) := by
  simp only [renewHandler]
  rw [map_id_of_mem _ _ (fun r hr => if_neg (h r hr))]

/-- Witness for C5 amended on the empty store. -/
theorem renew_unknown_id_succeeds_noop_witness :
    (∀ r ∈ (⟨[], []⟩ : DB).deployments, r.id ≠ "missing") ∧
    renewHandler defaultConfig 0 "missing" none ⟨[], []⟩ =
      (.ok (renewNewExpiry defaultConfig 0 none), ⟨[], []⟩) :=
  ⟨by simp, renew_unknown_id_succeeds_noop defaultConfig 0 "missing" none ⟨[], []⟩ (by simp)⟩

/-- C1 counterexample: one file is uploaded, then the deployments insert
fails; the handler answers 500 while the uploaded object still sits in
the bucket under the fresh deployment id.  Nothing is deleted before the
error returns. -/
theorem upload_failure_keeps_object_counterexample :
    (uploadHandler defaultConfig 0 0 "d1"
      { name := some "Demo", description := none, expiryDays := none,
        files := [{ originalname := "index.html", bytes := [60, 104, 49, 62], size := 4,
                    mimetype := "text/html" }] }
      (fun _ => false) true false [] ⟨[], []⟩).1 = .serverError ∧
    storageLookup (uploadHandler defaultConfig 0 0 "d1"
      { name := some "Demo", description := none, expiryDays := none,
        files := [{ originalname := "index.html", bytes := [60, 104, 49, 62], size := 4,
                    mimetype := "text/html" }] }
      (fun _ => false) true false [] ⟨[], []⟩).2.1 "d1/index.html" = some [60, 104, 49, 62] := by
  decide

/-- C1 amended: when every storage upload succeeds and the deployments
insert then fails, the catch block answers 500 with no compensating
cleanup: the metadata store is unchanged and every file of the batch is
still present in the bucket under the fresh deployment id. -/
theorem upload_insert_failure_leaves_bytes (cfg : Config) (now ts : Int)
    (deploymentId : String) (req : UploadRequest) (uploadFails : Nat → Bool)
    (st : ObjectStorage) (db : DB)
    (hf : ∀ n, uploadFails n = false)
    (hname : isValidDeploymentName (jsOrString req.name ("Deployment-" ++ toString ts)) = true) :
    (uploadHandler cfg now ts deploymentId req uploadFails true false st db).1 = .serverError ∧
    (uploadHandler cfg now ts deploymentId req uploadFails true false st db).2.2 = db ∧
    ∀ f ∈ req.files,
      (storageLookup (uploadHandler cfg now ts deploymentId req uploadFails true false st db).2.1
        (deploymentId ++ "/" ++ f.originalname)).isSome = true := by
  obtain ⟨⟨st1, total1, recs1⟩, hok⟩ :=
    uploadLoop_no_faults_ok deploymentId uploadFails hf req.files 0 st 0 []
  have hh : uploadHandler cfg now ts deploymentId req uploadFails true false st db =
      (.serverError, st1, db) := by
    simp [uploadHandler, hname, hok]
  refine ⟨by rw [hh], by rw [hh], ?_⟩
  intro f hmem
  rw [hh]
  have hkey := uploadLoop_uploads_all deploymentId uploadFails hf req.files 0 st 0 [] f hmem
  rw [hok] at hkey
  simpa [loopBucket] using hkey

/-- Witness for C1 amended: the concrete one-file run of the
counterexample satisfies the hypotheses. -/
theorem upload_insert_failure_leaves_bytes_witness :
    (∀ n : Nat, (fun _ : Nat => false) n = false) ∧
    isValidDeploymentName (jsOrString (some "Demo") ("Deployment-" ++ toString (0 : Int))) = true ∧
    ((uploadHandler defaultConfig 0 0 "d1"
        { name := some "Demo", description := none, expiryDays := none,
          files := [{ originalname := "index.html", bytes := [60, 104, 49, 62], size := 4,
                      mimetype := "text/html" }] }
        (fun _ => false) true false [] ⟨[], []⟩).1 = .serverError ∧
      (uploadHandler defaultConfig 0 0 "d1"
        { name := some "Demo", description := none, expiryDays := none,
          files := [{ originalname := "index.html", bytes := [60, 104, 49, 62], size := 4,
                      mimetype := "text/html" }] }
        (fun _ => false) true false [] ⟨[], []⟩).2.2 = ⟨[], []⟩ ∧
      ∀ f ∈ ({ name := some "Demo", description := none, expiryDays := none,
                 files := [{ originalname := "index.html", bytes := [60, 104, 49, 62], size := 4,
                             mimetype := "text/html" }] } : UploadRequest).files,
        (storageLookup (uploadHandler defaultConfig 0 0 "d1"
          { name := some "Demo", description := none, expiryDays := none,
            files := [{ originalname := "index.html", bytes := [60, 104, 49, 62], size := 4,
                        mimetype := "text/html" }] }
          (fun _ => false) true false [] ⟨[], []⟩).2.1
          ("d1" ++ "/" ++ f.originalname)).isSome = true) :=
  ⟨fun _ => rfl, by decide,
    upload_insert_failure_leaves_bytes defaultConfig 0 0 "d1"
      { name := some "Demo", description := none, expiryDays := none,
        files := [{ originalname := "index.html", bytes := [60, 104, 49, 62], size := 4,
                    mimetype := "text/html" }] }
      (fun _ => false) [] ⟨[], []⟩ (fun _ => rfl) (by decide)⟩

/-- C3 counterexample: an upload with an empty file set is not rejected
with a 400; it succeeds with file count zero and a deployments row is
inserted. -/
theorem empty_upload_accepted_counterexample :
    (uploadHandler defaultConfig 0 0 "d1"
      { name := some "Demo", description := none, expiryDays := none, files := [] }
      (fun _ => false) false false [] ⟨[], []⟩).1 = .ok "d1" 0 0 ∧
    ((uploadHandler defaultConfig 0 0 "d1"
      { name := some "Demo", description := none, expiryDays := none, files := [] }
      (fun _ => false) false false [] ⟨[], []⟩).2.2).deployments.length = 1 := by
  decide

/-- C3 amended: a validly named ingestion with zero files succeeds; the
handler answers 200 with file count and total size zero and inserts a
deployments row carrying file_count zero, instead of rejecting the empty
batch. -/
theorem empty_upload_creates_empty_deployment (cfg : Config) (now ts : Int)
    (deploymentId : String) (req : UploadRequest) (uploadFails : Nat → Bool)
    (st : ObjectStorage) (db : DB)
    (hname : isValidDeploymentName (jsOrString req.name ("Deployment-" ++ toString ts)) = true)
    (hfiles : req.files = []) :
    uploadHandler cfg now ts deploymentId req uploadFails false false st db =
      (.ok deploymentId 0 0, st,
        { db with deployments := db.deployments ++
            [{ id := deploymentId
               name := jsOrString req.name ("Deployment-" ++ toString ts)
               description := jsOrString req.description ""
               url := cfg.supabaseUrl ++ "/storage/v1/object/public/deployments/" ++ deploymentId
               admin_url := cfg.baseUrl ++ "/deployment/" ++ deploymentId
               file_count := 0
               total_size := 0
               expires_at := now + min (jsOrInt req.expiryDays cfg.defaultExpiryDays) cfg.maxExpiryDays
               updated_at := now
               status := "active" }] }) := by
  simp [uploadHandler, hname, hfiles, uploadLoop]

/-- Witness for C3 amended at a concrete empty batch. -/
theorem empty_upload_creates_empty_deployment_witness :
    isValidDeploymentName (jsOrString (some "Demo") ("Deployment-" ++ toString (0 : Int))) = true ∧
    uploadHandler defaultConfig 0 0 "d1"
      { name := some "Demo", description := none, expiryDays := none, files := [] }
      (fun _ => false) false false [] ⟨[], []⟩ =
      (.ok "d1" 0 0, [],
        ⟨[{ id := "d1", name := "Demo", description := "",
            url := "https://example.supabase.co/storage/v1/object/public/deployments/d1",
            admin_url := "http://localhost:3000/deployment/d1",
            file_count := 0, total_size := 0, expires_at := 7, updated_at := 0,
            status := "active" }], []⟩) :=
  ⟨by decide,
    empty_upload_creates_empty_deployment defaultConfig 0 0 "d1"
      { name := some "Demo", description := none, expiryDays := none, files := [] }
      (fun _ => false) [] ⟨[], []⟩ (by decide) rfl⟩

/-- C9: a batch of two files sharing one original name succeeds; the
upsert keyed on deploymentId slash original name leaves a single object
in the bucket holding the bytes of the second file, while one file
record per input file is inserted, so the recorded file count two
exceeds the one stored object and the two records carry the same
file_path. -/
theorem duplicate_name_batch_overwrites (f1 f2 : UploadedFile) (db : DB)
    (h : f1.originalname = f2.originalname) :
    (uploadHandler defaultConfig 0 0 "d1"
      { name := some "Demo", description := none, expiryDays := none, files := [f1, f2] }
      (fun _ => false) false false [] db).1 = .ok "d1" 2 (f1.size + f2.size) ∧
    (uploadHandler defaultConfig 0 0 "d1"
      { name := some "Demo", description := none, expiryDays := none, files := [f1, f2] }
      (fun _ => false) false false [] db).2.1 = [("d1" ++ "/" ++ f2.originalname, f2.bytes)] ∧
    ((uploadHandler defaultConfig 0 0 "d1"
      { name := some "Demo", description := none, expiryDays := none, files := [f1, f2] }
      (fun _ => false) false false [] db).2.2).deployment_files =
      db.deployment_files ++ [mkFileRecord "d1" f1, mkFileRecord "d1" f2] ∧
    (mkFileRecord "d1" f1).file_path = (mkFileRecord "d1" f2).file_path := by
  have hvalid :
      isValidDeploymentName (jsOrString (some "Demo") ("Deployment-" ++ toString (0 : Int))) = true := by
    decide
  refine ⟨?_, ?_, ?_, ?_⟩ <;>
    simp [uploadHandler, uploadLoop, storageUpsert, storageErase, mkFileRecord, h, hvalid]

/-- Witness for C9 with two concrete files named alike. -/
theorem duplicate_name_batch_overwrites_witness :
    ({ originalname := "a.txt", bytes := [1], size := 1,
       mimetype := "text/plain" } : UploadedFile).originalname =
      ({ originalname := "a.txt", bytes := [2, 3], size := 2,
         mimetype := "text/plain" } : UploadedFile).originalname ∧
    (uploadHandler defaultConfig 0 0 "d1"
      { name := some "Demo", description := none, expiryDays := none,
        files := [{ originalname := "a.txt", bytes := [1], size := 1, mimetype := "text/plain" },
                  { originalname := "a.txt", bytes := [2, 3], size := 2, mimetype := "text/plain" }] }
      (fun _ => false) false false [] ⟨[], []⟩).1 = .ok "d1" 2 (1 + 2) ∧
    (uploadHandler defaultConfig 0 0 "d1"
      { name := some "Demo", description := none, expiryDays := none,
        files := [{ originalname := "a.txt", bytes := [1], size := 1, mimetype := "text/plain" },
                  { originalname := "a.txt", bytes := [2, 3], size := 2, mimetype := "text/plain" }] }
      (fun _ => false) false false [] ⟨[], []⟩).2.1 = [("d1" ++ "/" ++ "a.txt", [2, 3])] ∧
    ((uploadHandler defaultConfig 0 0 "d1"
      { name := some "Demo", description := none, expiryDays := none,
        files := [{ originalname := "a.txt", bytes := [1], size := 1, mimetype := "text/plain" },
                  { originalname := "a.txt", bytes := [2, 3], size := 2, mimetype := "text/plain" }] }
      (fun _ => false) false false [] ⟨[], []⟩).2.2).deployment_files =
      ([] : List FileRecord) ++
        [mkFileRecord "d1" { originalname := "a.txt", bytes := [1], size := 1, mimetype := "text/plain" },
         mkFileRecord "d1" { originalname := "a.txt", bytes := [2, 3], size := 2, mimetype := "text/plain" }] ∧
    (mkFileRecord "d1" { originalname := "a.txt", bytes := [1], size := 1,
                         mimetype := "text/plain" }).file_path =
      (mkFileRecord "d1" { originalname := "a.txt", bytes := [2, 3], size := 2,
                           mimetype := "text/plain" }).file_path := by
  have happ := duplicate_name_batch_overwrites
    { originalname := "a.txt", bytes := [1], size := 1, mimetype := "text/plain" }
    { originalname := "a.txt", bytes := [2, 3], size := 2, mimetype := "text/plain" }
    ⟨[], []⟩ rfl
  exact ⟨rfl, happ.1, happ.2.1, happ.2.2.1, happ.2.2.2⟩

/-- C6: a request on a deployment that the active-status lookup finds
but whose expiry is strictly in the past answers the distinct 410 gone
result, not either of the two 404 not-found results. -/
theorem expired_deployment_gets_gone (now : Int) (db : DB) (st : ObjectStorage)
    (id p : String) (d : DeploymentRow)
    (hrow : staticFindRow db id = some d) (hexp : d.expires_at < now) :
    staticHandler now db st id p = .expired ∧
    staticStatus (staticHandler now db st id p) = 410 ∧
    StaticResult.expired ≠ StaticResult.dbNotFound ∧
    StaticResult.expired ≠ StaticResult.fileNotFound := by
  have hh : staticHandler now db st id p = .expired := by
    simp [staticHandler, hrow, hexp]
  exact ⟨hh, by rw [hh]; rfl, by simp, by simp⟩

/-- Witness for C6 on a one-row store whose deployment expired a day
ago. -/
theorem expired_deployment_gets_gone_witness :
    staticFindRow ⟨[exampleExpiredRow], []⟩ "d1" = some exampleExpiredRow ∧
    exampleExpiredRow.expires_at < 0 ∧
    (staticHandler 0 ⟨[exampleExpiredRow], []⟩ [] "d1" "x" = .expired ∧
      staticStatus (staticHandler 0 ⟨[exampleExpiredRow], []⟩ [] "d1" "x") = 410 ∧
      StaticResult.expired ≠ StaticResult.dbNotFound ∧
      StaticResult.expired ≠ StaticResult.fileNotFound) :=
  ⟨by decide, by decide,
    expired_deployment_gets_gone 0 ⟨[exampleExpiredRow], []⟩ [] "d1" "x"
      exampleExpiredRow (by decide) (by decide)⟩

/-- C7: on an active, unexpired deployment storing index.html at the
root, the empty request path misses the bucket directly and is served
through the index fallback with the bytes of index.html as text/html,
while a nonempty path that misses the bucket and neither is empty nor
ends in a slash answers the 404 file-not-found result. -/
theorem root_index_fallback_and_miss (now : Int) (db : DB) (st : ObjectStorage)
    (id q : String) (d : DeploymentRow) (b : List Nat)
    (hrow : staticFindRow db id = some d) (hexp : ¬ d.expires_at < now)
    (hroot : storageLookup st (id ++ "/") = none)
    (hidx : storageLookup st (id ++ "/" ++ "index.html") = some b)
    (hq : storageLookup st (id ++ "/" ++ q) = none)
    (hq1 : ¬ q = "") (hq2 : strEndsWith q "/" = false) :
    staticHandler now db st id "" = .ok b "text/html" ∧
    staticHandler now db st id q = .fileNotFound := by
  constructor
  · simp [staticHandler, hrow, hexp, String.append_empty, hroot, hidx]
  · simp [staticHandler, hrow, hexp, hq, hq1, hq2]

/-- Witness for C7 on a deployment whose bucket holds exactly its root
index.html. -/
theorem root_index_fallback_and_miss_witness :
    staticFindRow ⟨[exampleActiveRow], []⟩ "d1" = some exampleActiveRow ∧
    (¬ exampleActiveRow.expires_at < 0) ∧
    storageLookup [("d1/index.html", [72, 73])] ("d1" ++ "/") = none ∧
    storageLookup [("d1/index.html", [72, 73])] ("d1" ++ "/" ++ "index.html") = some [72, 73] ∧
    storageLookup [("d1/index.html", [72, 73])] ("d1" ++ "/" ++ "missing.txt") = none ∧
    (¬ "missing.txt" = "") ∧
    strEndsWith "missing.txt" "/" = false ∧
    (staticHandler 0 ⟨[exampleActiveRow], []⟩ [("d1/index.html", [72, 73])] "d1" "" =
        .ok [72, 73] "text/html" ∧
      staticHandler 0 ⟨[exampleActiveRow], []⟩ [("d1/index.html", [72, 73])] "d1" "missing.txt" =
        .fileNotFound) :=
  ⟨by decide, by decide, by decide, by decide, by decide, by decide, by decide,
    root_index_fallback_and_miss 0 ⟨[exampleActiveRow], []⟩
      [("d1/index.html", [72, 73])] "d1" "missing.txt" exampleActiveRow [72, 73]
      (by decide) (by decide) (by decide) (by decide) (by decide) (by decide) (by decide)⟩

/-- Folding trigger-bearing file-record inserts over a one-row store
whose row owns every record bumps that row's counters once per record
and appends the records. -/
theorem foldl_insertFileRecordPg (now : Int) (id : String) :
    ∀ (rs : List FileRecord) (row : DeploymentRow) (fs : List FileRecord),
      row.id = id → (∀ r ∈ rs, r.deployment_id = id) →
      rs.foldl (insertFileRecordPg now) ⟨[row], fs⟩ =
        ⟨[{ row with
            file_count := row.file_count + rs.length
            total_size := row.total_size + (rs.map (fun r => r.file_size)).sum
            updated_at := if rs.length = 0 then row.updated_at else now }],
          fs ++ rs⟩ := by
  intro rs
  induction rs with
  | nil => intro row fs hrow hrs; simp
  | cons r rest ih =>
    intro row fs hrow hrs
    have hr : r.deployment_id = id := hrs r (List.mem_cons_self r rest)
    have hrest : ∀ x ∈ rest, x.deployment_id = id :=
      fun x hx => hrs x (List.mem_cons_of_mem r hx)
    have hstep : insertFileRecordPg now ⟨[row], fs⟩ r =
        ⟨[{ row with
            file_count := row.file_count + 1
            total_size := row.total_size + r.file_size
            updated_at := now }], fs ++ [r]⟩ := by
      simp [insertFileRecordPg, hrow, hr]
    rw [List.foldl_cons, hstep,
      ih { row with
            file_count := row.file_count + 1
            total_size := row.total_size + r.file_size
            updated_at := now } (fs ++ [r]) hrow hrest]
    have e1 : row.file_count + 1 + rest.length = row.file_count + (rest.length + 1) := by
      omega
    have e2 : row.total_size + r.file_size + (List.map (fun x => x.file_size) rest).sum =
        row.total_size + (r.file_size + (List.map (fun x => x.file_size) rest).sum) := by
      omega
    simp [e1, e2, List.append_assoc]

/-- A store with a member row whose file_count disagrees with the count
of its file records fails the aggregate-counter invariant. -/
theorem statsInvariant_false_of (db2 : DB) (row : DeploymentRow)
    (hmem : row ∈ db2.deployments)
    (hneq : row.file_count ≠ (filesOf db2 row.id).length) :
    statsInvariant db2 = false := by
  cases hall : statsInvariant db2 with
  | false => rfl
  | true =>
    exfalso
    simp only [statsInvariant] at hall
    have hrow := List.all_eq_true.mp hall row hmem
    rw [Bool.and_eq_true] at hrow
    exact hneq (of_decide_eq_true hrow.1)

/-- C2 amended: a successful pg ingestion of a batch into an empty store
leaves the new deployments row double-counted: with the stats trigger
firing on each of the N inserted file records on top of the explicitly
inserted counters, the row ends with file_count equal to N plus N and
total_size equal to twice the summed sizes, while exactly N matching
file records exist, so the claimed invariant fails whenever the batch is
nonempty. -/
theorem pg_upload_double_counts (cfg : Config) (now : Int) (deploymentId name desc : String)
    (expiryDaysParam : Option Int) (mimeOf : String → Option String) (files : List PgFile)
    (hname : isValidDeploymentName name = true) :
    ∃ db2 : DB,
      pgUploadTransaction cfg now deploymentId name desc expiryDaysParam mimeOf files ⟨[], []⟩ =
        some db2 ∧
      db2.deployment_files = files.map (mkPgFileRecord mimeOf deploymentId) ∧
      (filesOf db2 deploymentId).length = files.length ∧
      ((filesOf db2 deploymentId).map (fun r => r.file_size)).sum =
        (files.map (fun f => f.size)).sum ∧
      (∃ row : DeploymentRow, db2.deployments = [row] ∧ row.id = deploymentId ∧
        row.file_count = files.length + files.length ∧
        row.total_size = (files.map (fun f => f.size)).sum + (files.map (fun f => f.size)).sum) ∧
      (files ≠ [] → statsInvariant db2 = false) := by
  have hrs : ∀ r ∈ files.map (mkPgFileRecord mimeOf deploymentId), r.deployment_id = deploymentId := by
    intro r hr
    rcases List.mem_map.mp hr with ⟨f, _, rfl⟩
    rfl
  have hsizes : ((files.map (mkPgFileRecord mimeOf deploymentId)).map (fun r => r.file_size)) =
      files.map (fun f => f.size) := by
    rw [List.map_map]; rfl
  have hfilter : (files.map (mkPgFileRecord mimeOf deploymentId)).filter
      (fun r => decide (r.deployment_id = deploymentId)) =
      files.map (mkPgFileRecord mimeOf deploymentId) :=
    List.filter_eq_self.mpr (fun a ha => decide_eq_true (hrs a ha))
  have hfold := foldl_insertFileRecordPg now deploymentId
    (files.map (mkPgFileRecord mimeOf deploymentId))
    (pgUploadRow cfg now deploymentId name desc expiryDaysParam files) [] rfl hrs
  have hdb2 : pgUploadTransaction cfg now deploymentId name desc expiryDaysParam mimeOf files
      ⟨[], []⟩ =
      some ((files.map (mkPgFileRecord mimeOf deploymentId)).foldl (insertFileRecordPg now)
        ⟨[pgUploadRow cfg now deploymentId name desc expiryDaysParam files], []⟩) := by
    simp [pgUploadTransaction, hname]
  rw [hfold] at hdb2
  refine ⟨_, hdb2, ?_, ?_, ?_, ?_, ?_⟩
  · simp
  · simp only [filesOf, List.nil_append]
    rw [hfilter, List.length_map]
  · simp only [filesOf, List.nil_append]
    rw [hfilter, hsizes]
  · refine ⟨_, rfl, by simp [pgUploadRow], by simp [pgUploadRow], by simp [pgUploadRow, hsizes]⟩
  · intro hne
    apply statsInvariant_false_of _
      { pgUploadRow cfg now deploymentId name desc expiryDaysParam files with
        file_count := (pgUploadRow cfg now deploymentId name desc expiryDaysParam files).file_count +
          (files.map (mkPgFileRecord mimeOf deploymentId)).length
        total_size := (pgUploadRow cfg now deploymentId name desc expiryDaysParam files).total_size +
          ((files.map (mkPgFileRecord mimeOf deploymentId)).map (fun r => r.file_size)).sum
        updated_at := if (files.map (mkPgFileRecord mimeOf deploymentId)).length = 0 then
            (pgUploadRow cfg now deploymentId name desc expiryDaysParam files).updated_at
          else now }
      (by simp)
    simp only [filesOf, List.nil_append, pgUploadRow]
    rw [hfilter, List.length_map]
    simp
    exact hne

/-- Witness for C2 amended at a one-file batch. -/
theorem pg_upload_double_counts_witness :
    isValidDeploymentName "Demo" = true ∧
    ∃ db2 : DB,
      pgUploadTransaction defaultConfig 0 "d1" "Demo" "" none (fun _ => none)
        [{ relativePath := "index.html", name := "index.html", size := 5 }] ⟨[], []⟩ =
        some db2 ∧
      db2.deployment_files =
        [{ relativePath := "index.html", name := "index.html", size := 5 }].map
          (mkPgFileRecord (fun _ => none) "d1") ∧
      (filesOf db2 "d1").length =
        [({ relativePath := "index.html", name := "index.html", size := 5 } : PgFile)].length ∧
      ((filesOf db2 "d1").map (fun r => r.file_size)).sum =
        ([({ relativePath := "index.html", name := "index.html", size := 5 } : PgFile)].map
          (fun f => f.size)).sum ∧
      (∃ row : DeploymentRow, db2.deployments = [row] ∧ row.id = "d1" ∧
        row.file_count =
          [({ relativePath := "index.html", name := "index.html", size := 5 } : PgFile)].length +
          [({ relativePath := "index.html", name := "index.html", size := 5 } : PgFile)].length ∧
        row.total_size =
          ([({ relativePath := "index.html", name := "index.html", size := 5 } : PgFile)].map
            (fun f => f.size)).sum +
          ([({ relativePath := "index.html", name := "index.html", size := 5 } : PgFile)].map
            (fun f => f.size)).sum) ∧
      ([({ relativePath := "index.html", name := "index.html", size := 5 } : PgFile)] ≠ [] →
        statsInvariant db2 = false) :=
  ⟨by decide,
    pg_upload_double_counts defaultConfig 0 "d1" "Demo" "" none (fun _ => none)
      [{ relativePath := "index.html", name := "index.html", size := 5 }] (by decide)⟩

/-- C2 counterexample: after one successful pg ingestion of a single
five-byte file into an empty store, the aggregate-counter invariant is
already false: the row says two files of size ten while one record of
size five exists. -/
theorem pg_upload_invariant_counterexample :
    (pgUploadTransaction defaultConfig 0 "d1" "Demo" "" none (fun _ => none)
      [{ relativePath := "index.html", name := "index.html", size := 5 }] ⟨[], []⟩).map
        statsInvariant = some false := by
  decide

end QuickDeploy
